import Mathlib

/-!
Verification of the browser messaging script `script.js`.

The script reads the page's query parameters, opens one WebSocket to a
hardcoded server URL with `room` and `name` passed as query parameters,
logs on open, and on each message parses the frame as JSON and calls the
ambient global `handleMessage` when it is bound to a function.

Shallow embedding used below:
- `window.location.search` is modelled as the association list of decoded
  (key, value) pairs it denotes; the browser built-in `URLSearchParams.get`
  returns the first value bound to a key, or null (`none`) when absent.
- The browser built-in `JSON.parse` is modelled as an arbitrary function
  `String → Option Json`; `none` models a thrown `SyntaxError`.
- The ambient global `handleMessage` is modelled by `GlobalBinding`
  (absent, bound to a non-function value, or bound to a function); it is
  supplied per delivered event, since the script checks it at call time.
- Handler bodies are translated to the list of `Action`s they perform;
  `Action.throwUncaught` marks an exception escaping the callback (there is
  no try/catch in the script). `Action.connect` is the action of
  constructing a new WebSocket: the type can express reconnection, so the
  theorems that no handler ever emits it are not vacuous.
- `PageState` records the observable page effects (constructed socket
  URLs, console lines, arguments passed to `handleMessage`, count of
  uncaught exceptions); `run` folds a sequence of delivered events.
-/

namespace WallScript

/-- JSON values, the possible results of a successful `JSON.parse`. -/
inductive Json where
  | null
  | bool (b : Bool)
  | num (n : Int)
  | str (s : String)
  | arr (elems : List Json)
  | obj (fields : List (String × Json))

/-- State of the ambient global binding `handleMessage` at the moment an
event fires: undeclared, declared but not a function, or a function. -/
inductive GlobalBinding where
  | absent
  | nonFunction
  | func
deriving DecidableEq

/-- The test `typeof handleMessage === "function"` from line 15. -/
def isFunc : GlobalBinding → Bool
  | GlobalBinding.func => true
  | _ => false

/-- Model of `URLSearchParams.get` (line 3 and 4): first value bound to
the key in the decoded query pairs, or null when the key is absent. -/
def getParam (search : List (String × String)) (k : String) : Option String :=
  (search.find? (fun p => p.1 == k)).map Prod.snd

/-- The JavaScript `x || d` idiom on a string-or-null `x`: null and the
empty string are falsy, every other string is returned unchanged. -/
def jsOrDefault (x : Option String) (d : String) : String :=
  match x with
  | none => d
  | some s => if s = "" then d else s

/-- Line 3: `const room = urlParams.get("room") || "default";`. -/
def roomOf (search : List (String × String)) : String :=
  jsOrDefault (getParam search "room") "default"

/-- Line 4: `const name = urlParams.get("name") || "anonymous";`. -/
def nameOf (search : List (String × String)) : String :=
  jsOrDefault (getParam search "name") "anonymous"

/-- Line 7: the hardcoded server address. -/
def serverUrl : String := "wss://your-backend.onrender.com/ws"

/-- Line 9: the template literal argument of the WebSocket constructor,
a verbatim concatenation with no percent-encoding. -/
def connectionUrl (search : List (String × String)) : String :=
  serverUrl ++ "?room=" ++ roomOf search ++ "&name=" ++ nameOf search

/-- Actions a handler body can perform on the page. -/
inductive Action where
  | log (msg : String)
  | callHandler (v : Json)
  | throwUncaught
  | connect (url : String)

/-- Whether an action constructs a new WebSocket. -/
def isConnect : Action → Bool
  | Action.connect _ => true
  | _ => false

/-- Lines 13-16: the body of `ws.onmessage`. `JSON.parse(event.data)` runs
first; on failure the exception escapes (no try/catch) and nothing further
runs. On success `handleMessage(data)` is called only when the call-time
global is a function; otherwise nothing happens. -/
def messageHandler (jsonParse : String → Option Json) (data : String)
    (g : GlobalBinding) : List Action :=
  match jsonParse data with
  | none => [Action.throwUncaught]
  | some v => if isFunc g then [Action.callHandler v] else []

/-- Line 11: the body of `ws.onopen`. -/
def openHandler : List Action := [Action.log "✅ WebSocket 已連線"]

/-- A WebSocket object as the script leaves it: its URL and its four
event-handler slots (a slot is `none` when the script never assigns it). -/
structure WSClient where
  url : String
  onopen : Option (List Action)
  onmessage : Option (String → GlobalBinding → List Action)
  onerror : Option (List Action)
  onclose : Option (List Action)

/-- Lines 2-16 of `script.js`: construct the WebSocket with the
concatenated URL, assign `onopen` and `onmessage`, leave `onerror` and
`onclose` unassigned. -/
def script (jsonParse : String → Option Json)
    (search : List (String × String)) : WSClient :=
  { url := connectionUrl search
  , onopen := some openHandler
  , onmessage := some (messageHandler jsonParse)
  , onerror := none
  , onclose := none }

/-- The WebSocket handler slots a top-level statement can assign. -/
inductive Slot where
  | onopen
  | onmessage
  | onerror
  | onclose
deriving DecidableEq

/-- Side effects of the script's top-level statements. -/
inductive TopEffect where
  | newWebSocket (url : String)
  | assignHandler (slot : Slot)
deriving DecidableEq

/-- Whether a top-level effect constructs a WebSocket. -/
def isNewWebSocket : TopEffect → Bool
  | TopEffect.newWebSocket _ => true
  | _ => false

/-- The effects of the script's top level, in program order: line 9
constructs the socket, line 11 assigns `onopen`, line 13 assigns
`onmessage`. No other effectful statement exists in the file. -/
def scriptEffects (search : List (String × String)) : List TopEffect :=
  [ TopEffect.newWebSocket (connectionUrl search)
  , TopEffect.assignHandler Slot.onopen
  , TopEffect.assignHandler Slot.onmessage ]

/-- Runtime events the browser can deliver to a WebSocket object. -/
inductive RtEvent where
  | opened
  | message (data : String)
  | errored
  | closed

/-- The browser's dispatch: run the installed handler slot for the event,
or do nothing when the slot is null. The message handler also sees the
call-time state of the ambient global. -/
def deliver (c : WSClient) (g : GlobalBinding) : RtEvent → List Action
  | RtEvent.opened => c.onopen.getD []
  | RtEvent.message d =>
      match c.onmessage with
      | none => []
      | some f => f d g
  | RtEvent.errored => c.onerror.getD []
  | RtEvent.closed => c.onclose.getD []

/-- Observable page state: URLs of every WebSocket constructed so far,
console output, the arguments `handleMessage` has received in order, and
the number of exceptions that escaped a callback uncaught. -/
structure PageState where
  wsUrls : List String
  consoleLog : List String
  handlerCalls : List Json
  uncaught : Nat

/-- Effect of one action on the page state. -/
def runAction (s : PageState) : Action → PageState
  | Action.log m => { s with consoleLog := s.consoleLog ++ [m] }
  | Action.callHandler v => { s with handlerCalls := s.handlerCalls ++ [v] }
  | Action.throwUncaught => { s with uncaught := s.uncaught + 1 }
  | Action.connect u => { s with wsUrls := s.wsUrls ++ [u] }

/-- Deliver one event (paired with the call-time global binding) to the
client and apply the resulting actions to the page state. -/
def step (c : WSClient) (s : PageState) (ev : GlobalBinding × RtEvent) :
    PageState :=
  (deliver c ev.1 ev.2).foldl runAction s

/-- Deliver a sequence of events. -/
def run (c : WSClient) (s : PageState)
    (evs : List (GlobalBinding × RtEvent)) : PageState :=
  evs.foldl (step c) s

/-- Page state right after the script's top level ran: exactly one socket
constructed, nothing logged yet, no handler calls, no uncaught errors. -/
def initState (search : List (String × String)) : PageState :=
  { wsUrls := [connectionUrl search]
  , consoleLog := []
  , handlerCalls := []
  , uncaught := 0 }

/-- Everything of the URL strictly before the first question mark. -/
def beforeQuery (s : String) : String :=
  String.mk (s.data.takeWhile (fun c => c != '?'))

/-- Split a character list on a separator (the separator is dropped). -/
def splitOnChar (sep : Char) : List Char → List (List Char)
  | [] => [[]]
  | c :: cs =>
      let r := splitOnChar sep cs
      if c = sep then [] :: r
      else
        match r with
        | [] => [[c]]
        | h :: t => (c :: h) :: t

/-- Split one `key=value` segment at its first equals sign; a segment
without an equals sign denotes the empty value. -/
def parsePairChars (seg : List Char) : List Char × List Char :=
  (seg.takeWhile (fun c => c != '='), (seg.dropWhile (fun c => c != '=')).drop 1)

/-- A query string as a receiving server would parse it: split on
ampersands, drop empty segments, split each segment at its first equals
sign. (The script applies no percent-encoding, so none is decoded.) -/
def parseQueryChars (q : List Char) : List (List Char × List Char) :=
  ((splitOnChar '&' q).filter (fun seg => seg ≠ [])).map parsePairChars

/-- The part of a URL after its first question mark. -/
def queryPart (url : String) : List Char :=
  (url.data.dropWhile (fun c => c != '?')).drop 1

/-- The value a server would read for key `k` from the query part of
`url`: first match wins, as in `URLSearchParams`. -/
def serverGet (url : String) (k : String) : Option String :=
  ((parseQueryChars (queryPart url)).find? (fun p => p.1 = k.data)).map
    (fun p => String.mk p.2)

/-- Sample stand-in for the browser's `JSON.parse`, used to instantiate
universally quantified theorems at a concrete parse function. -/
def jsonParseSample : String → Option Json :=
  fun s => if s = "1" then some (Json.num 1) else none

/-! Helper lemmas. -/

/-- Delivering a message event to the script's socket runs the body of
`ws.onmessage`. -/
lemma deliver_script_message (jsonParse : String → Option Json)
    (search : List (String × String)) (g : GlobalBinding) (d : String) :
    deliver (script jsonParse search) g (RtEvent.message d)
      = messageHandler jsonParse d g := rfl

/-- Delivering an open event to the script's socket runs the body of
`ws.onopen`. -/
lemma deliver_script_opened (jsonParse : String → Option Json)
    (search : List (String × String)) (g : GlobalBinding) :
    deliver (script jsonParse search) g RtEvent.opened = openHandler := rfl

/-- No handler is installed for the error event, so nothing runs. -/
lemma deliver_script_errored (jsonParse : String → Option Json)
    (search : List (String × String)) (g : GlobalBinding) :
    deliver (script jsonParse search) g RtEvent.errored = [] := rfl

/-- No handler is installed for the close event, so nothing runs. -/
lemma deliver_script_closed (jsonParse : String → Option Json)
    (search : List (String × String)) (g : GlobalBinding) :
    deliver (script jsonParse search) g RtEvent.closed = [] := rfl

/-- Case analysis on an action performed by the message handler: either
the parse failed and the action is the escaping exception, or the parse
succeeded, the call-time global is a function, and the action is the call
to it with the parsed value. -/
lemma mem_messageHandler (jsonParse : String → Option Json) (d : String)
    (g : GlobalBinding) (a : Action)
    (ha : a ∈ messageHandler jsonParse d g) :
    (jsonParse d = none ∧ a = Action.throwUncaught)
    ∨ (∃ v, jsonParse d = some v ∧ isFunc g = true
        ∧ a = Action.callHandler v) := by
  unfold messageHandler at ha
  cases hp : jsonParse d with
  | none =>
      rw [hp] at ha
      simp at ha
      exact Or.inl ⟨rfl, ha⟩
  | some v =>
      rw [hp] at ha
      cases hg : isFunc g with
      | false =>
          rw [hg] at ha
          simp at ha
      | true =>
          rw [hg] at ha
          simp at ha
          exact Or.inr ⟨v, rfl, rfl, ha⟩

/-- No handler of the script ever constructs a WebSocket. -/
lemma deliver_script_not_connect (jsonParse : String → Option Json)
    (search : List (String × String)) (g : GlobalBinding) (e : RtEvent) :
    ∀ a ∈ deliver (script jsonParse search) g e, isConnect a = false := by
  intro a ha
  cases e with
  | opened =>
      rw [deliver_script_opened] at ha
      simp [openHandler] at ha
      rw [ha]
      rfl
  | message d =>
      rw [deliver_script_message] at ha
      rcases mem_messageHandler jsonParse d g a ha with ⟨-, he⟩ | ⟨v, -, -, he⟩
      · rw [he]; rfl
      · rw [he]; rfl
  | errored =>
      rw [deliver_script_errored] at ha
      exact absurd ha (List.not_mem_nil a)
  | closed =>
      rw [deliver_script_closed] at ha
      exact absurd ha (List.not_mem_nil a)

/-- Actions that do not construct a socket leave the socket list alone. -/
lemma runAction_wsUrls (s : PageState) (a : Action)
    (h : isConnect a = false) :
    (runAction s a).wsUrls = s.wsUrls := by
  cases a with
  | log m => rfl
  | callHandler v => rfl
  | throwUncaught => rfl
  | connect u => simp [isConnect] at h

/-- Folding a list of non-constructing actions leaves the socket list
alone. -/
lemma foldl_runAction_wsUrls (acts : List Action) (s : PageState)
    (h : ∀ a ∈ acts, isConnect a = false) :
    (acts.foldl runAction s).wsUrls = s.wsUrls := by
  induction acts generalizing s with
  | nil => rfl
  | cons a t ih =>
      have ha : isConnect a = false := h a (List.mem_cons_self a t)
      have ht : ∀ b ∈ t, isConnect b = false :=
        fun b hb => h b (List.mem_cons_of_mem a hb)
      calc ((a :: t).foldl runAction s).wsUrls
          = (t.foldl runAction (runAction s a)).wsUrls := rfl
        _ = (runAction s a).wsUrls := ih (runAction s a) ht
        _ = s.wsUrls := runAction_wsUrls s a ha

/-- One delivered event leaves the list of constructed sockets alone. -/
lemma step_script_wsUrls (jsonParse : String → Option Json)
    (search : List (String × String)) (s : PageState)
    (ev : GlobalBinding × RtEvent) :
    (step (script jsonParse search) s ev).wsUrls = s.wsUrls :=
  foldl_runAction_wsUrls _ s
    (fun a ha => deliver_script_not_connect jsonParse search ev.1 ev.2 a ha)

/-- Any sequence of delivered events leaves the list of constructed
sockets alone. -/
lemma run_script_wsUrls (jsonParse : String → Option Json)
    (search : List (String × String)) (s : PageState)
    (evs : List (GlobalBinding × RtEvent)) :
    (run (script jsonParse search) s evs).wsUrls = s.wsUrls := by
  induction evs generalizing s with
  | nil => rfl
  | cons ev t ih =>
      calc (run (script jsonParse search) s (ev :: t)).wsUrls
          = (run (script jsonParse search)
              (step (script jsonParse search) s ev) t).wsUrls := rfl
        _ = (step (script jsonParse search) s ev).wsUrls :=
            ih (step (script jsonParse search) s ev)
        _ = s.wsUrls := step_script_wsUrls jsonParse search s ev

/-- Data of the connection URL with the question mark exposed. -/
lemma connectionUrl_data_qmark (search : List (String × String)) :
    (connectionUrl search).data
      = serverUrl.data
        ++ '?' :: ("room=" ++ roomOf search ++ "&name=" ++ nameOf search).data :=
  rfl

/-- Data of the connection URL split into its five concatenated parts. -/
lemma connectionUrl_data_parts (search : List (String × String)) :
    (connectionUrl search).data
      = serverUrl.data ++ "?room=".data ++ (roomOf search).data
        ++ "&name=".data ++ (nameOf search).data := rfl

/-- takeWhile of a satisfying prefix followed by a failing element. -/
lemma takeWhile_concrete_stop (p : Char → Bool) (l₁ l₂ : List Char)
    (c : Char) (h₁ : l₁.all p = true) (hc : p c = false) :
    (l₁ ++ c :: l₂).takeWhile p = l₁ := by
  induction l₁ with
  | nil => simp [List.takeWhile_cons, hc]
  | cons x xs ih =>
      simp only [List.all_cons, Bool.and_eq_true] at h₁
      simp [List.takeWhile_cons, h₁.1, ih h₁.2]

/-- Regrouping of the URL concatenation around the room value. -/
lemma url_split_room (r n : String) :
    serverUrl ++ "?room=" ++ r ++ "&name=" ++ n
      = (serverUrl ++ "?") ++ ("room=" ++ r) ++ ("&name=" ++ n) := by
  simp only [String.append_assoc]
  rfl

/-- Regrouping of the URL concatenation around an empty room value: the
substring "room=" still occurs, followed by the empty value. -/
lemma url_split_room_empty (n : String) :
    serverUrl ++ "?room=" ++ "default" ++ "&name=" ++ n
      = (serverUrl ++ "?") ++ ("room=" ++ "") ++ ("default&name=" ++ n) := by
  simp only [String.append_assoc]
  rfl

/-- Regrouping of the URL concatenation around the name value. -/
lemma url_split_name (r n : String) :
    serverUrl ++ "?room=" ++ r ++ "&name=" ++ n
      = (serverUrl ++ "?room=" ++ r ++ "&") ++ ("name=" ++ n) ++ "" := by
  simp only [String.append_assoc, String.append_empty]
  rfl

/-- Regrouping of the URL concatenation around an empty name value. -/
lemma url_split_name_empty (r : String) :
    serverUrl ++ "?room=" ++ r ++ "&name=" ++ "anonymous"
      = (serverUrl ++ "?room=" ++ r ++ "&") ++ ("name=" ++ "") ++ "anonymous" := by
  simp only [String.append_assoc]
  rfl

/-! Claim theorems. -/

/-- C1: for every query string, the WebSocket URL contains the literal
substring "room=" immediately followed by the value of the room query
parameter (or "default" when absent), and the literal substring "name="
immediately followed by the value of the name query parameter (or
"anonymous" when absent). -/
theorem c1_url_contains_room_and_name (search : List (String × String)) :
    (∃ a b : String, connectionUrl search
        = a ++ ("room=" ++ (getParam search "room").getD "default") ++ b)
    ∧ (∃ a b : String, connectionUrl search
        = a ++ ("name=" ++ (getParam search "name").getD "anonymous") ++ b) := by
  constructor
  · cases h : getParam search "room" with
    | none =>
        refine ⟨serverUrl ++ "?", "&name=" ++ nameOf search, ?_⟩
        have hr : roomOf search = "default" := by
          simp [roomOf, h, jsOrDefault]
        simp only [Option.getD_none]
        unfold connectionUrl
        rw [hr]
        exact url_split_room "default" (nameOf search)
    | some v =>
        by_cases hv : v = ""
        · refine ⟨serverUrl ++ "?", "default&name=" ++ nameOf search, ?_⟩
          have hr : roomOf search = "default" := by
            simp [roomOf, h, jsOrDefault, hv]
          simp only [Option.getD_some, hv]
          unfold connectionUrl
          rw [hr]
          exact url_split_room_empty (nameOf search)
        · refine ⟨serverUrl ++ "?", "&name=" ++ nameOf search, ?_⟩
          have hr : roomOf search = v := by
            simp [roomOf, h, jsOrDefault, hv]
          simp only [Option.getD_some]
          unfold connectionUrl
          rw [hr]
          exact url_split_room v (nameOf search)
  · cases h : getParam search "name" with
    | none =>
        refine ⟨serverUrl ++ "?room=" ++ roomOf search ++ "&", "", ?_⟩
        have hn : nameOf search = "anonymous" := by
          simp [nameOf, h, jsOrDefault]
        simp only [Option.getD_none]
        unfold connectionUrl
        rw [hn]
        exact url_split_name (roomOf search) "anonymous"
    | some v =>
        by_cases hv : v = ""
        · refine ⟨serverUrl ++ "?room=" ++ roomOf search ++ "&", "anonymous", ?_⟩
          have hn : nameOf search = "anonymous" := by
            simp [nameOf, h, jsOrDefault, hv]
          simp only [Option.getD_some, hv]
          unfold connectionUrl
          rw [hn]
          exact url_split_name_empty (roomOf search)
        · refine ⟨serverUrl ++ "?room=" ++ roomOf search ++ "&", "", ?_⟩
          have hn : nameOf search = v := by
            simp [nameOf, h, jsOrDefault, hv]
          simp only [Option.getD_some]
          unfold connectionUrl
          rw [hn]
          exact url_split_name (roomOf search) v

/-- C2 counterexample: the claim says that an absent `handleMessage`
propagates out of the message callback as an unhandled runtime fault; in
the code the typeof guard on line 15 skips the call silently instead.
Concretely, delivering a message whose data parses as JSON while the
global is absent performs no action at all and raises no fault. -/
theorem c2_counterexample_absent_handler_no_fault :
    (step (script jsonParseSample []) (initState [])
        (GlobalBinding.absent, RtEvent.message "1")).uncaught = 0
    ∧ deliver (script jsonParseSample []) GlobalBinding.absent
        (RtEvent.message "1") = [] := by
  exact ⟨rfl, rfl⟩

/-- C2 (amended): connection failures and malformed JSON are unhandled: a
JSON parse failure propagates out of the message callback as an unhandled
runtime fault, and no error or close handler is installed; but a missing
(or non-function) `handleMessage` does not fault: the typeof guard skips
dispatch silently. -/
theorem c2_unhandled_faults_amended (jsonParse : String → Option Json)
    (search : List (String × String)) (s : PageState)
    (g : GlobalBinding) (d : String) :
    (jsonParse d = none →
        (step (script jsonParse search) s (g, RtEvent.message d)).uncaught
          = s.uncaught + 1)
    ∧ (script jsonParse search).onerror = none
    ∧ (script jsonParse search).onclose = none
    ∧ (∀ v, jsonParse d = some v → isFunc g = false →
        step (script jsonParse search) s (g, RtEvent.message d) = s) := by
  refine ⟨?_, rfl, rfl, ?_⟩
  · intro hp
    have hdel : deliver (script jsonParse search) g (RtEvent.message d)
        = [Action.throwUncaught] := by
      rw [deliver_script_message]
      unfold messageHandler
      rw [hp]
    show ((deliver (script jsonParse search) g (RtEvent.message d)).foldl
        runAction s).uncaught = s.uncaught + 1
    rw [hdel]
    rfl
  · intro v hp hg
    have hdel : deliver (script jsonParse search) g (RtEvent.message d)
        = [] := by
      rw [deliver_script_message]
      unfold messageHandler
      rw [hp, hg]
      simp
    show (deliver (script jsonParse search) g (RtEvent.message d)).foldl
        runAction s = s
    rw [hdel]
    rfl

/-- C2 amended witness: a concrete frame that fails to parse, delivered
to the script's socket, bumps the count of uncaught faults. -/
theorem c2_unhandled_faults_amended_witness :
    jsonParseSample "x" = none
    ∧ (step (script jsonParseSample []) (initState [])
        (GlobalBinding.absent, RtEvent.message "x")).uncaught
        = (initState []).uncaught + 1 :=
  ⟨rfl, (c2_unhandled_faults_amended jsonParseSample [] (initState [])
      GlobalBinding.absent "x").1 rfl⟩

/-- C3: whenever the handler is invoked for an inbound message event, the
value it receives is the successful JSON parse of the event's data, never
the raw text frame. -/
theorem c3_handler_receives_parsed_json (jsonParse : String → Option Json)
    (search : List (String × String)) (g : GlobalBinding) (d : String)
    (v : Json)
    (hv : Action.callHandler v
        ∈ deliver (script jsonParse search) g (RtEvent.message d)) :
    jsonParse d = some v := by
  rw [deliver_script_message] at hv
  rcases mem_messageHandler jsonParse d g _ hv with ⟨-, he⟩ | ⟨w, hp, -, he⟩
  · exact absurd he (by simp)
  · have hw : v = w := by
      injection he
    rw [hw]
    exact hp

/-- C3 witness: a concrete frame "1" parsed to the JSON number 1 is what
the handler receives. -/
theorem c3_handler_receives_parsed_json_witness :
    (Action.callHandler (Json.num 1)
        ∈ deliver (script jsonParseSample []) GlobalBinding.func
            (RtEvent.message "1"))
    ∧ jsonParseSample "1" = some (Json.num 1) := by
  have hm : Action.callHandler (Json.num 1)
      ∈ deliver (script jsonParseSample []) GlobalBinding.func
          (RtEvent.message "1") := by
    show Action.callHandler (Json.num 1) ∈ [Action.callHandler (Json.num 1)]
    exact List.Mem.head _
  exact ⟨hm, c3_handler_receives_parsed_json jsonParseSample []
      GlobalBinding.func "1" (Json.num 1) hm⟩

/-- C4: the parsed message is dispatched to `handleMessage` only when the
call-time global binding is a function; when it is not, no call is made. -/
theorem c4_dispatch_only_if_function (jsonParse : String → Option Json)
    (search : List (String × String)) (g : GlobalBinding) (d : String) :
    (∀ v, Action.callHandler v
        ∈ deliver (script jsonParse search) g (RtEvent.message d)
        → isFunc g = true)
    ∧ (isFunc g = false → ∀ v, Action.callHandler v
        ∉ deliver (script jsonParse search) g (RtEvent.message d)) := by
  constructor
  · intro v hv
    rw [deliver_script_message] at hv
    rcases mem_messageHandler jsonParse d g _ hv with ⟨-, he⟩ | ⟨w, -, hg, -⟩
    · exact absurd he (by simp)
    · exact hg
  · intro hg v hv
    rw [deliver_script_message] at hv
    rcases mem_messageHandler jsonParse d g _ hv with ⟨-, he⟩ | ⟨w, -, hg', -⟩
    · exact absurd he (by simp)
    · rw [hg] at hg'
      exact absurd hg' (by simp)

/-- C4 witness: with the global bound to a function, the concrete frame
"1" is dispatched, and the typeof test indeed holds there. -/
theorem c4_dispatch_only_if_function_witness :
    (Action.callHandler (Json.num 1)
        ∈ deliver (script jsonParseSample []) GlobalBinding.func
            (RtEvent.message "1"))
    ∧ isFunc GlobalBinding.func = true := by
  have hm : Action.callHandler (Json.num 1)
      ∈ deliver (script jsonParseSample []) GlobalBinding.func
          (RtEvent.message "1") := by
    show Action.callHandler (Json.num 1) ∈ [Action.callHandler (Json.num 1)]
    exact List.Mem.head _
  exact ⟨hm, (c4_dispatch_only_if_function jsonParseSample []
      GlobalBinding.func "1").1 (Json.num 1) hm⟩

/-- C5: the script constructs exactly one WebSocket, and the part of the
connection URL before the question mark is the hardcoded server address,
whatever the query parameters are. -/
theorem c5_one_socket_hardcoded_server (search : List (String × String)) :
    (scriptEffects search).countP isNewWebSocket = 1
    ∧ beforeQuery (connectionUrl search) = serverUrl := by
  constructor
  · simp [scriptEffects, List.countP_cons, List.countP_nil, isNewWebSocket]
  · have h := takeWhile_concrete_stop (fun c => c != '?') serverUrl.data
        ("room=" ++ roomOf search ++ "&name=" ++ nameOf search).data '?'
        (by decide) rfl
    unfold beforeQuery
    rw [connectionUrl_data_qmark, h]

/-- C6: the URL (hence the room identifier embedded in it) of the
constructed connection is fixed at construction time: no sequence of
delivered events ever changes the list of constructed sockets, so the
single socket keeps the URL built from the initial query parameters. -/
theorem c6_room_fixed_for_lifetime (jsonParse : String → Option Json)
    (search : List (String × String)) (s : PageState)
    (evs : List (GlobalBinding × RtEvent)) :
    (run (script jsonParse search) s evs).wsUrls = s.wsUrls
    ∧ (run (script jsonParse search) (initState search) evs).wsUrls
        = [connectionUrl search] :=
  ⟨run_script_wsUrls jsonParse search s evs,
   run_script_wsUrls jsonParse search (initState search) evs⟩

/-- C7: the top level assigns handlers only to the open and message
slots; the error and close slots stay null, so closure or error of the
socket triggers no action; and no handler ever constructs a WebSocket, so
the script never reconnects. -/
theorem c7_only_open_message_no_reconnect (jsonParse : String → Option Json)
    (search : List (String × String)) :
    (∀ slot, TopEffect.assignHandler slot ∈ scriptEffects search
        → slot = Slot.onopen ∨ slot = Slot.onmessage)
    ∧ (script jsonParse search).onerror = none
    ∧ (script jsonParse search).onclose = none
    ∧ (∀ g, deliver (script jsonParse search) g RtEvent.errored = []
        ∧ deliver (script jsonParse search) g RtEvent.closed = [])
    ∧ (∀ u g e, Action.connect u ∉ deliver (script jsonParse search) g e)
    ∧ (∀ s evs, (run (script jsonParse search) s evs).wsUrls = s.wsUrls) := by
  refine ⟨?_, rfl, rfl, fun g => ⟨rfl, rfl⟩, ?_,
      fun s evs => run_script_wsUrls jsonParse search s evs⟩
  · intro slot hmem
    simp [scriptEffects] at hmem
    exact hmem
  · intro u g e hmem
    have h := deliver_script_not_connect jsonParse search g e
        (Action.connect u) hmem
    exact absurd h (by simp [isConnect])

/-- C7 witness: the open slot is among the assigned handler slots of the
script's top level, and it is one of the two permitted slots. -/
theorem c7_only_open_message_no_reconnect_witness :
    (TopEffect.assignHandler Slot.onopen ∈ scriptEffects [])
    ∧ (Slot.onopen = Slot.onopen ∨ Slot.onopen = Slot.onmessage) := by
  have hm : TopEffect.assignHandler Slot.onopen ∈ scriptEffects [] := by
    decide
  exact ⟨hm, (c7_only_open_message_no_reconnect jsonParseSample []).1
      Slot.onopen hm⟩

/-- Sample query pairs for C8: the room value contains a raw ampersand
and equals sign, as decoded from a page query string such as
`?room=a%26name%3Devil`. -/
def qsSample : List (String × String) := [("room", "a&name=evil")]

/-- C8: the URL is built by verbatim concatenation with no
percent-encoding: every character of the room and name values appears
as-is in the URL; consequently, for the sample query whose room value
contains an ampersand, both the room and the name a server would parse
from the URL differ from the values the page supplied. -/
theorem c8_no_percent_encoding :
    (∀ search c, c ∈ (roomOf search).data → c ∈ (connectionUrl search).data)
    ∧ (∀ search c, c ∈ (nameOf search).data → c ∈ (connectionUrl search).data)
    ∧ serverGet (connectionUrl qsSample) "room" ≠ some (roomOf qsSample)
    ∧ serverGet (connectionUrl qsSample) "name" ≠ some (nameOf qsSample) := by
  refine ⟨?_, ?_, by decide, by decide⟩
  · intro search c hc
    rw [connectionUrl_data_parts]
    simp only [List.mem_append]
    exact Or.inl (Or.inl (Or.inr hc))
  · intro search c hc
    rw [connectionUrl_data_parts]
    simp only [List.mem_append]
    exact Or.inr hc

/-- C8 witness: the ampersand of the supplied room value appears verbatim
in the connection URL. -/
theorem c8_no_percent_encoding_witness :
    ('&' ∈ (roomOf qsSample).data) ∧ '&' ∈ (connectionUrl qsSample).data :=
  ⟨by decide, c8_no_percent_encoding.1 qsSample '&' (by decide)⟩

/-- C9: a room or name parameter bound to the empty string is treated
exactly like an absent one: in both cases the default value is used. -/
theorem c9_empty_param_treated_as_absent (search : List (String × String)) :
    (getParam search "room" = some "" → roomOf search = "default")
    ∧ (getParam search "room" = none → roomOf search = "default")
    ∧ (getParam search "name" = some "" → nameOf search = "anonymous")
    ∧ (getParam search "name" = none → nameOf search = "anonymous") := by
  refine ⟨fun h => ?_, fun h => ?_, fun h => ?_, fun h => ?_⟩
  · simp [roomOf, h, jsOrDefault]
  · simp [roomOf, h, jsOrDefault]
  · simp [nameOf, h, jsOrDefault]
  · simp [nameOf, h, jsOrDefault]

/-- C9 witness: concrete query pairs binding both parameters to the empty
string produce the defaults. -/
theorem c9_empty_param_treated_as_absent_witness :
    getParam [("room", ""), ("name", "")] "room" = some ""
    ∧ roomOf [("room", ""), ("name", "")] = "default" :=
  ⟨rfl, (c9_empty_param_treated_as_absent [("room", ""), ("name", "")]).1 rfl⟩

/-- C10: an inbound message that parses as JSON, delivered while no
function-valued global handler exists, is silently discarded: the page
state is unchanged (no error, no recorded call), and any later run from
that point is as if the message had never arrived. -/
theorem c10_silent_discard (jsonParse : String → Option Json)
    (search : List (String × String)) (s : PageState) (g : GlobalBinding)
    (d : String) (v : Json) (hp : jsonParse d = some v)
    (hg : isFunc g = false) :
    step (script jsonParse search) s (g, RtEvent.message d) = s
    ∧ ∀ rest, run (script jsonParse search) s ((g, RtEvent.message d) :: rest)
        = run (script jsonParse search) s rest := by
  have hdel : deliver (script jsonParse search) g (RtEvent.message d)
      = [] := by
    rw [deliver_script_message]
    unfold messageHandler
    rw [hp, hg]
    simp
  have hstep : step (script jsonParse search) s (g, RtEvent.message d) = s := by
    show (deliver (script jsonParse search) g (RtEvent.message d)).foldl
        runAction s = s
    rw [hdel]
    rfl
  refine ⟨hstep, fun rest => ?_⟩
  calc run (script jsonParse search) s ((g, RtEvent.message d) :: rest)
      = run (script jsonParse search)
          (step (script jsonParse search) s (g, RtEvent.message d)) rest := rfl
    _ = run (script jsonParse search) s rest := by rw [hstep]

/-- C10 witness: the concrete frame "1", delivered while the global is
absent, leaves the freshly initialised page state unchanged. -/
theorem c10_silent_discard_witness :
    jsonParseSample "1" = some (Json.num 1)
    ∧ isFunc GlobalBinding.absent = false
    ∧ step (script jsonParseSample []) (initState [])
        (GlobalBinding.absent, RtEvent.message "1") = initState [] :=
  ⟨rfl, rfl, (c10_silent_discard jsonParseSample [] (initState [])
      GlobalBinding.absent "1" (Json.num 1) rfl rfl).1⟩

end WallScript
